import Mathlib

/-!
Shallow embedding of the CortexSyncDirect provider-validation service.

Source files embedded:
  - src/orchestrator.py : the five-node pipeline (fetch, scrape, quality
    assurance, update-db / flag-review), the mock provider table, the
    field comparison and the confidence computation.
  - src/app.py : the request boundary (`validate_provider`) that rejects
    non-positive identifiers before invoking the pipeline.

Conventions of the embedding:
  - A record (`dict` of field name to string in Python) is a function
    from the fixed compared field set to `Option String`; a missing key
    is `none` and `dict.get(field, "")` is `Option.getD ""`.  The `id`
    entry of the Python dicts is not in `fields_to_compare` and is kept
    in the state's `provider_id` instead.
  - Python string operations are modelled on the character list of the
    string: `lower` maps `Char.toLower`, `strip` drops whitespace at
    both ends, `in` is substring occurrence, `split()` counts maximal
    non-whitespace runs.
  - The dynamically added `"_expected_confidence"` state key is an
    `Option Int` field of the state (`none` models the absent key).
  - Machine integers are `Int` (Python ints are unbounded, so no
    wrap-around modelling is needed).
-/

namespace CortexSync

/-- The fixed field set compared by `quality_assurance_node`
(`fields_to_compare` in src/orchestrator.py). -/
inductive Field where
  | name
  | specialty
  | phone
  | address
  | city
  | state
  | zip
  | license_number
  | npi
deriving DecidableEq, BEq, Repr

/-- `fields_to_compare = ["name", ..., "npi"]` from src/orchestrator.py. -/
def fields_to_compare : List Field :=
  [Field.name, Field.specialty, Field.phone, Field.address, Field.city,
   Field.state, Field.zip, Field.license_number, Field.npi]

/-- A provider record: a mapping from field name to string value; a missing
key is `none` (Python `dict.get(field, "")` supplies `""` for it). -/
def Record : Type := Field → Option String

/-- The empty record `{}` used for the initial state in src/app.py. -/
def emptyRecord : Record := fun _ => none

/-- A discrepancy entry, as appended by `quality_assurance_node`:
`{"field": field, "db_value": str(db_value), "scraped_value": str(scraped_value)}`. -/
structure Discrepancy where
  field : Field
  db_value : String
  scraped_value : String
deriving DecidableEq, Repr

/-- Default whitespace characters of Python `str.strip()` / `str.split()`
(restricted to the ASCII whitespace occurring in the data). -/
def isSpaceChar (c : Char) : Bool :=
  c == ' ' || c == '\t' || c == '\n' || c == '\r'

/-- Drop whitespace from both ends of a character list (Python `str.strip()`). -/
def trimChars (l : List Char) : List Char :=
  ((l.dropWhile isSpaceChar).reverse.dropWhile isSpaceChar).reverse

/-- `str(value).lower().strip()` from src/orchestrator.py lines 381-382. -/
def normalize (s : String) : String :=
  String.mk (trimChars (s.data.map Char.toLower))

/-- `leadsWith xs ys` holds when `xs` is an initial segment of `ys`. -/
def leadsWith : List Char → List Char → Bool
  | [], _ => true
  | _ :: _, [] => false
  | x :: xs, y :: ys => x == y && leadsWith xs ys

/-- `occursIn xs ys` holds when `xs` occurs contiguously inside `ys`. -/
def occursIn (xs : List Char) : List Char → Bool
  | [] => leadsWith xs []
  | y :: ys => leadsWith xs (y :: ys) || occursIn xs ys

/-- Python substring containment `a in b` on strings. -/
def isSubstrOf (a b : String) : Bool :=
  occursIn a.data b.data

/-- Number of words of Python `s.split()` (split on whitespace runs,
empty pieces discarded): `countWords l inWord` scans `l` with `inWord`
recording whether the previous character was inside a word. -/
def countWords : List Char → Bool → Nat
  | [], _ => 0
  | c :: cs, inWord =>
    if isSpaceChar c then countWords cs false
    else (if inWord then 0 else 1) + countWords cs true

/-- `len(s.split())` from the address word-count check. -/
def wordCount (s : String) : Nat :=
  countWords s.data false

/-- The `is_minor_variation` condition of src/orchestrator.py lines 387-391:
`db_normalized in scraped_normalized or scraped_normalized in db_normalized
or field == "address" and (len(db_normalized.split()) == len(scraped_normalized.split()) - 1)`. -/
def is_minor_variation (field : Field) (db_normalized scraped_normalized : String) : Bool :=
  isSubstrOf db_normalized scraped_normalized ||
  isSubstrOf scraped_normalized db_normalized ||
  (field == Field.address &&
    ((wordCount db_normalized : Int) == (wordCount scraped_normalized : Int) - 1))

/-- The per-field body of the comparison loop of `quality_assurance_node`
(src/orchestrator.py lines 376-398): `some` of the appended discrepancy, or
`none` when the values are normalized-equal or a minor variation. -/
def fieldDiscrepancy (db_data scraped_data : Record) (field : Field) : Option Discrepancy :=
  let db_value := (db_data field).getD ""
  let scraped_value := (scraped_data field).getD ""
  let db_normalized := normalize db_value
  let scraped_normalized := normalize scraped_value
  if db_normalized = scraped_normalized then none
  else if is_minor_variation field db_normalized scraped_normalized then none
  else some { field := field, db_value := db_value, scraped_value := scraped_value }

/-- The full discrepancy list accumulated by the comparison loop of
`quality_assurance_node`, in field order. -/
def compareFields (db_data scraped_data : Record) : List Discrepancy :=
  fields_to_compare.filterMap (fieldDiscrepancy db_data scraped_data)

/-- The confidence computation of `quality_assurance_node`
(src/orchestrator.py lines 400-414): baseline branch when
`"_expected_confidence" in state`, fallback branch otherwise. -/
def computeConfidence (expected : Option Int) (discrepancy_count : Nat) : Int :=
  match expected with
  | some b => if discrepancy_count > 0 then max 0 (b - (discrepancy_count : Int) * 5) else b
  | none =>
    if discrepancy_count = 0 then 95
    else if discrepancy_count = 1 then 75
    else max 0 (100 - (discrepancy_count : Int) * 20)

/-- The `status` Literal of `AgentState` in src/orchestrator.py. -/
inductive Status where
  | pending
  | verified
  | flagged
deriving DecidableEq, Repr

/-- The LangGraph state object (`AgentState` TypedDict, src/orchestrator.py
lines 25-32).  `expected_confidence` models the `"_expected_confidence"` key
added dynamically by `fetch_provider_node` (`none` = key absent). -/
structure AgentState where
  provider_id : Int
  current_db_data : Record
  scraped_data : Record
  discrepancies : List Discrepancy
  confidence_score : Int
  status : Status
  expected_confidence : Option Int

/-- One entry of the mock table of `get_mock_provider_data`: the `"db"`
record, the `"scraped"` record and the `"confidence"` value. -/
structure ProviderData where
  db : Record
  scraped : Record
  confidence : Int

/-- Builds a record from the nine compared field values (the `id` entry of
the Python dicts is not in the compared field set). -/
def mkRecord (name specialty phone address city st zip license npi : String) : Record :=
  fun f =>
    match f with
    | Field.name => some name
    | Field.specialty => some specialty
    | Field.phone => some phone
    | Field.address => some address
    | Field.city => some city
    | Field.state => some st
    | Field.zip => some zip
    | Field.license_number => some license
    | Field.npi => some npi

/-- Provider 1001 record (db and scraped dicts are character-identical in the source). -/
def record_1001 : Record :=
  mkRecord "Dr. Rajesh Kumar" "Cardiology" "+91-11-2658-3456" "A-123, Green Park"
    "New Delhi" "Delhi" "110016" "MCI/DEL/12345/2010" "9876543210"

/-- Provider 1002 record (db and scraped dicts are character-identical in the source). -/
def record_1002 : Record :=
  mkRecord "Dr. Priya Sharma" "Pediatrics" "+91-22-2645-7890" "B-456, Bandra West"
    "Mumbai" "Maharashtra" "400050" "MCI/MAH/23456/2012" "8765432109"

/-- Provider 1003 db record. -/
def record_1003_db : Record :=
  mkRecord "Dr. Amit Patel" "Orthopedics" "+91-79-2658-1234" "C-789, Satellite"
    "Ahmedabad" "Gujarat" "380015" "MCI/GUJ/34567/2015" "7654321098"

/-- Provider 1003 scraped record (address has "Area" appended). -/
def record_1003_scraped : Record :=
  mkRecord "Dr. Amit Patel" "Orthopedics" "+91-79-2658-1234" "C-789, Satellite Area"
    "Ahmedabad" "Gujarat" "380015" "MCI/GUJ/34567/2015" "7654321098"

/-- Provider 2001 db record. -/
def record_2001_db : Record :=
  mkRecord "Dr. Anjali Reddy" "Dermatology" "+91-40-2789-4567" "D-321, Banjara Hills"
    "Hyderabad" "Telangana" "500034" "MCI/TEL/45678/2011" "6543210987"

/-- Provider 2001 scraped record (different phone). -/
def record_2001_scraped : Record :=
  mkRecord "Dr. Anjali Reddy" "Dermatology" "+91-40-2789-4568" "D-321, Banjara Hills"
    "Hyderabad" "Telangana" "500034" "MCI/TEL/45678/2011" "6543210987"

/-- Provider 2002 db record. -/
def record_2002_db : Record :=
  mkRecord "Dr. Vikram Singh" "Neurology" "+91-80-2558-9876" "E-654, Koramangala"
    "Bangalore" "Karnataka" "560095" "MCI/KAR/56789/2013" "5432109876"

/-- Provider 2002 scraped record (different address). -/
def record_2002_scraped : Record :=
  mkRecord "Dr. Vikram Singh" "Neurology" "+91-80-2558-9876" "E-654, Koramangala 5th Block"
    "Bangalore" "Karnataka" "560095" "MCI/KAR/56789/2013" "5432109876"

/-- Provider 3001 db record. -/
def record_3001_db : Record :=
  mkRecord "Dr. Meera Nair" "Gynecology" "+91-44-2845-2345" "F-987, T. Nagar"
    "Chennai" "Tamil Nadu" "600017" "MCI/TN/67890/2014" "4321098765"

/-- Provider 3001 scraped record (different phone, different address format). -/
def record_3001_scraped : Record :=
  mkRecord "Dr. Meera Nair" "Gynecology" "+91-44-2845-2346" "F-987, Thyagaraya Nagar"
    "Chennai" "Tamil Nadu" "600017" "MCI/TN/67890/2014" "4321098765"

/-- Provider 3002 db record. -/
def record_3002_db : Record :=
  mkRecord "Dr. Ravi Iyer" "Oncology" "+91-33-2445-6789" "G-147, Salt Lake"
    "Kolkata" "West Bengal" "700064" "MCI/WB/78901/2016" "3210987654"

/-- Provider 3002 scraped record (different phone, different address). -/
def record_3002_scraped : Record :=
  mkRecord "Dr. Ravi Iyer" "Oncology" "+91-33-2445-6790" "G-147, Salt Lake City"
    "Kolkata" "West Bengal" "700064" "MCI/WB/78901/2016" "3210987654"

/-- Provider 4001 record (db and scraped dicts are character-identical in the source). -/
def record_4001 : Record :=
  mkRecord "Dr. Kavita Desai" "Endocrinology" "+91-20-2558-3456" "H-258, Koregaon Park"
    "Pune" "Maharashtra" "411001" "MCI/MAH/89012/2017" "2109876543"

/-- Default provider db record (returned for identifiers not in the table). -/
def record_default_db : Record :=
  mkRecord "Dr. Arjun Mehta" "General Medicine" "+91-11-2658-3456" "I-369, Connaught Place"
    "New Delhi" "Delhi" "110001" "MCI/DEL/90123/2018" "1098765432"

/-- Default provider scraped record (different phone). -/
def record_default_scraped : Record :=
  mkRecord "Dr. Arjun Mehta" "General Medicine" "+91-11-2658-3457" "I-369, Connaught Place"
    "New Delhi" "Delhi" "110001" "MCI/DEL/90123/2018" "1098765432"

/-- `get_mock_provider_data` (src/orchestrator.py lines 39-298): the mock
table lookup with the default provider for unknown identifiers.  Every
entry carries a `"confidence"` value, so `provider_data.get("confidence", 75)`
is the entry's confidence (75 for the default entry). -/
def get_mock_provider_data (provider_id : Int) : ProviderData :=
  if provider_id = 1001 then ⟨record_1001, record_1001, 85⟩
  else if provider_id = 1002 then ⟨record_1002, record_1002, 92⟩
  else if provider_id = 1003 then ⟨record_1003_db, record_1003_scraped, 88⟩
  else if provider_id = 2001 then ⟨record_2001_db, record_2001_scraped, 78⟩
  else if provider_id = 2002 then ⟨record_2002_db, record_2002_scraped, 75⟩
  else if provider_id = 3001 then ⟨record_3001_db, record_3001_scraped, 65⟩
  else if provider_id = 3002 then ⟨record_3002_db, record_3002_scraped, 68⟩
  else if provider_id = 4001 then ⟨record_4001, record_4001, 90⟩
  else ⟨record_default_db, record_default_scraped, 75⟩

/-- `fetch_provider_node` (src/orchestrator.py lines 305-327): stores the db
record, the expected confidence and status `pending`. -/
def fetch_provider_node (state : AgentState) : AgentState :=
  let provider_data := get_mock_provider_data state.provider_id
  { state with
    expected_confidence := some provider_data.confidence,
    current_db_data := provider_data.db,
    status := Status.pending }

/-- `scrape_web_node` (src/orchestrator.py lines 330-349): stores the scraped
record and resets the discrepancy list. -/
def scrape_web_node (state : AgentState) : AgentState :=
  let provider_data := get_mock_provider_data state.provider_id
  { state with
    scraped_data := provider_data.scraped,
    discrepancies := [] }

/-- `quality_assurance_node` (src/orchestrator.py lines 352-424): compares
the two records field by field and computes the confidence score. -/
def quality_assurance_node (state : AgentState) : AgentState :=
  let discrepancies := compareFields state.current_db_data state.scraped_data
  let confidence_score := computeConfidence state.expected_confidence discrepancies.length
  { state with
    discrepancies := discrepancies,
    confidence_score := confidence_score }

/-- `update_db_node` (src/orchestrator.py lines 427-448): sets status
`verified`. -/
def update_db_node (state : AgentState) : AgentState :=
  { state with status := Status.verified }

/-- `flag_review_node` (src/orchestrator.py lines 451-476): sets status
`flagged`. -/
def flag_review_node (state : AgentState) : AgentState :=
  { state with status := Status.flagged }

/-- `should_update_db` (src/orchestrator.py lines 483-492): the conditional
edge function routing on `confidence_score`. -/
def should_update_db (state : AgentState) : String :=
  if state.confidence_score > 80 then "update_db" else "flag_review"

/-- The conditional edge of `create_workflow_graph` (src/orchestrator.py
lines 521-528): the label returned by `should_update_db` selects the node. -/
def apply_route (state : AgentState) : AgentState :=
  if should_update_db state = "update_db" then update_db_node state
  else flag_review_node state

/-- The compiled straight-line graph of `create_workflow_graph`
(src/orchestrator.py lines 499-534): fetch, scrape, quality assurance,
then the conditional edge into update-db or flag-review. -/
def run_workflow (state : AgentState) : AgentState :=
  apply_route (quality_assurance_node (scrape_web_node (fetch_provider_node state)))

/-- The initial state built by `validate_provider` (src/app.py lines 96-103);
the `"_expected_confidence"` key is absent. -/
def initial_state (provider_id : Int) : AgentState :=
  { provider_id := provider_id,
    current_db_data := emptyRecord,
    scraped_data := emptyRecord,
    discrepancies := [],
    confidence_score := 0,
    status := Status.pending,
    expected_confidence := none }

/-- The error taxonomy of the API boundary: `InvalidInput` is the
HTTP 400 "Provider ID must be a positive integer" rejection. -/
inductive ApiError where
  | invalidInput
deriving DecidableEq, Repr

/-- `validate_provider` (src/app.py lines 87-111): rejects a non-positive
identifier before constructing the state or invoking the graph; otherwise
builds the initial state and runs the workflow. -/
def validate_provider (provider_id : Int) : Except ApiError AgentState :=
  if provider_id ≤ 0 then Except.error ApiError.invalidInput
  else Except.ok (run_workflow (initial_state provider_id))

/-!
## Supporting lemmas
-/

/-- `leadsWith` decides the prefix relation on character lists. -/
theorem leadsWith_iff (xs ys : List Char) : leadsWith xs ys = true ↔ xs <+: ys := by
  induction xs generalizing ys with
  | nil => simp [leadsWith]
  | cons x xs ih =>
    cases ys with
    | nil => simp [leadsWith]
    | cons y ys => simp [leadsWith, List.cons_prefix_cons, ih, Bool.and_eq_true, beq_iff_eq]

/-- `occursIn` decides the contiguous-sublist (infix) relation on character lists. -/
theorem occursIn_iff (xs ys : List Char) : occursIn xs ys = true ↔ xs <:+: ys := by
  induction ys with
  | nil => simp [occursIn, leadsWith_iff]
  | cons y ys ih =>
    simp [occursIn, Bool.or_eq_true, leadsWith_iff, ih, List.infix_cons_iff]

/-- The empty character list occurs in every list (Python: `"" in s` is `True`). -/
theorem occursIn_nil (l : List Char) : occursIn [] l = true := by
  cases l <;> simp [occursIn, leadsWith]

/-- The empty string is a substring of every string. -/
theorem isSubstrOf_empty_left (s : String) : isSubstrOf "" s = true :=
  occursIn_nil s.data

/-- A discrepancy produced for field `f` carries field `f`. -/
theorem fieldDiscrepancy_field {db_data scraped_data : Record} {f : Field} {d : Discrepancy}
    (h : fieldDiscrepancy db_data scraped_data f = some d) : d.field = f := by
  unfold fieldDiscrepancy at h
  dsimp only at h
  split at h
  · simp at h
  · split at h
    · simp at h
    · injection h with h2
      subst h2
      rfl

/-- Every discrepancy in the comparison output is the one produced for its
own field. -/
theorem mem_compareFields {db_data scraped_data : Record} {d : Discrepancy}
    (h : d ∈ compareFields db_data scraped_data) :
    fieldDiscrepancy db_data scraped_data d.field = some d := by
  unfold compareFields at h
  rw [List.mem_filterMap] at h
  obtain ⟨f, _, hf⟩ := h
  rw [fieldDiscrepancy_field hf]
  exact hf

/-- When the per-field check produces no discrepancy for `f`, no discrepancy
for `f` appears in the comparison output. -/
theorem fieldDiscrepancy_none_not_mem {db_data scraped_data : Record} {f : Field}
    (h : fieldDiscrepancy db_data scraped_data f = none) :
    f ∉ (compareFields db_data scraped_data).map Discrepancy.field := by
  intro hmem
  rw [List.mem_map] at hmem
  obtain ⟨d, hd, hdf⟩ := hmem
  have hsome := mem_compareFields hd
  rw [hdf, h] at hsome
  exact Option.noConfusion hsome

/-- Comparing a record against itself yields no discrepancies. -/
theorem compareFields_self (r : Record) : compareFields r r = [] := by
  unfold compareFields
  rw [List.filterMap_eq_nil_iff]
  intro f _
  unfold fieldDiscrepancy
  simp

/-- The conditional edge does not change the confidence score. -/
theorem apply_route_confidence (s : AgentState) :
    (apply_route s).confidence_score = s.confidence_score := by
  unfold apply_route update_db_node flag_review_node
  split <;> rfl

/-- The conditional edge followed by the selected terminal node sets the
status from the threshold comparison alone. -/
theorem apply_route_status (s : AgentState) :
    (apply_route s).status =
      if s.confidence_score > 80 then Status.verified else Status.flagged := by
  unfold apply_route should_update_db update_db_node flag_review_node
  by_cases h : s.confidence_score > 80
  · rw [if_pos h, if_pos rfl, if_pos h]
  · rw [if_neg h, if_neg (by decide), if_neg h]

/-!
## Example records and states used by the claims
-/

/-- Reference record of the spec's phone example: only the phone key is set. -/
def phone_reference : Record := fun f =>
  match f with
  | Field.phone => some "+91-11-2658-3456"
  | _ => none

/-- Observed record of the spec's phone example: only the phone key is set. -/
def phone_observed : Record := fun f =>
  match f with
  | Field.phone => some "+91-11-2658-3457"
  | _ => none

/-- A request state carrying the phone example pair and no baseline hint. -/
def phone_example_state : AgentState :=
  { provider_id := 1,
    current_db_data := phone_reference,
    scraped_data := phone_observed,
    discrepancies := [],
    confidence_score := 0,
    status := Status.pending,
    expected_confidence := none }

/-- A request state carrying an identical (reference, observed) pair and no
baseline hint. -/
def identical_state (r : Record) : AgentState :=
  { provider_id := 1,
    current_db_data := r,
    scraped_data := r,
    discrepancies := [],
    confidence_score := 0,
    status := Status.pending,
    expected_confidence := none }

/-!
## Claims
-/

/-- C1: The router is a pure total function of the confidence score: the
outcome after the conditional edge is `verified` iff `confidence > 80` and
`flagged` iff `confidence ≤ 80`; the routing label depends only on the
confidence score; and in particular confidence 81 routes to `verified`,
80 to `flagged` and 0 to `flagged`. -/
theorem C1_router_threshold :
    (∀ s : AgentState,
        ((apply_route s).status = Status.verified ↔ s.confidence_score > 80) ∧
        ((apply_route s).status = Status.flagged ↔ s.confidence_score ≤ 80)) ∧
    (∀ s t : AgentState, s.confidence_score = t.confidence_score →
        should_update_db s = should_update_db t) ∧
    (apply_route { initial_state 1 with confidence_score := 81 }).status = Status.verified ∧
    (apply_route { initial_state 1 with confidence_score := 80 }).status = Status.flagged ∧
    (apply_route { initial_state 1 with confidence_score := 0 }).status = Status.flagged := by
  refine ⟨?_, ?_, ?_, ?_, ?_⟩
  · intro s
    have hs := apply_route_status s
    by_cases h : s.confidence_score > 80
    · rw [hs, if_pos h]
      exact ⟨⟨fun _ => h, fun _ => rfl⟩,
             ⟨fun hv => Status.noConfusion hv, fun hle => absurd h (by omega)⟩⟩
    · rw [hs, if_neg h]
      exact ⟨⟨fun hv => Status.noConfusion hv, fun hgt => absurd hgt h⟩,
             ⟨fun _ => by omega, fun _ => rfl⟩⟩
  · intro s t h
    unfold should_update_db
    rw [h]
  · rw [apply_route_status]
    rfl
  · rw [apply_route_status]
    rfl
  · rw [apply_route_status]
    rfl

/-- Witness for C1 at concrete states: two states agreeing on the confidence
score (81) but differing elsewhere get the same routing label. -/
theorem C1_router_threshold_witness :
    should_update_db { initial_state 1 with confidence_score := 81 }
      = should_update_db { initial_state 2 with confidence_score := 81 } :=
  C1_router_threshold.2.1 _ _ rfl

/-- C2: With a baseline expected score `b` (a confidence value, hence
nonnegative), the computed confidence is `max 0 (b - 5 * n)` for `n`
recorded discrepancies, and exactly `b` when `n = 0`. -/
theorem C2_baseline_confidence (b : Int) (n : Nat) (hb : 0 ≤ b) :
    computeConfidence (some b) n = max 0 (b - 5 * (n : Int)) ∧
    (n = 0 → computeConfidence (some b) n = b) := by
  constructor
  · simp only [computeConfidence]
    by_cases h : n > 0
    · rw [if_pos h]
      congr 1
      ring
    · have hn : n = 0 := by omega
      subst hn
      simp only [Nat.cast_zero, mul_zero, sub_zero, if_neg (by omega : ¬(0 : Nat) > 0)]
      exact (max_eq_right hb).symm
  · intro hn
    subst hn
    simp [computeConfidence]

/-- Witness for C2 at baseline 85 with 2 discrepancies. -/
theorem C2_baseline_confidence_witness :
    computeConfidence (some 85) 2 = max 0 (85 - 5 * ((2 : Nat) : Int)) ∧
    ((2 : Nat) = 0 → computeConfidence (some 85) 2 = 85) :=
  C2_baseline_confidence 85 2 (by decide)

/-- C3: Without a baseline, the confidence is a function of the discrepancy
count alone (0 gives 95, 1 gives 75, n at least 2 gives `max 0 (100 - 20n)`);
the phone example with no baseline yields one discrepancy, confidence 75 and
outcome `flagged`; identical records with no baseline yield no discrepancies,
confidence 95 and outcome `verified`. -/
theorem C3_fallback_confidence :
    (∀ n : Nat, computeConfidence none n =
        if n = 0 then 95 else if n = 1 then 75 else max 0 (100 - 20 * (n : Int))) ∧
    ((quality_assurance_node phone_example_state).discrepancies.length = 1 ∧
     (quality_assurance_node phone_example_state).confidence_score = 75 ∧
     (apply_route (quality_assurance_node phone_example_state)).status = Status.flagged) ∧
    (∀ r : Record,
      compareFields r r = [] ∧
      (quality_assurance_node (identical_state r)).confidence_score = 95 ∧
      (apply_route (quality_assurance_node (identical_state r))).status = Status.verified) := by
  refine ⟨?_, by decide, ?_⟩
  · intro n
    simp only [computeConfidence]
    by_cases h0 : n = 0
    · simp [h0]
    · by_cases h1 : n = 1
      · simp [h0, h1]
      · rw [if_neg h0, if_neg h1, if_neg h0, if_neg h1]
        congr 1
        ring
  · intro r
    have hc := compareFields_self r
    have hq : (quality_assurance_node (identical_state r)).confidence_score = 95 := by
      simp [quality_assurance_node, identical_state, hc, computeConfidence]
    refine ⟨hc, hq, ?_⟩
    rw [apply_route_status, hq]
    rfl

/-- C4: For every (reference, observed) pair and every baseline hint (a
confidence value, hence in `[0, 100]`), the confidence produced by the
comparison step lies in `[0, 100]`; so does the no-baseline confidence; and
every baseline hint the mock record source can supply lies in `[0, 100]`. -/
theorem C4_confidence_bounds (db_data scraped_data : Record) (b : Int)
    (hb0 : 0 ≤ b) (hb1 : b ≤ 100) :
    (0 ≤ computeConfidence (some b) (compareFields db_data scraped_data).length ∧
     computeConfidence (some b) (compareFields db_data scraped_data).length ≤ 100) ∧
    (0 ≤ computeConfidence none (compareFields db_data scraped_data).length ∧
     computeConfidence none (compareFields db_data scraped_data).length ≤ 100) ∧
    (∀ provider_id : Int,
      0 ≤ (get_mock_provider_data provider_id).confidence ∧
      (get_mock_provider_data provider_id).confidence ≤ 100) := by
  refine ⟨?_, ?_, ?_⟩
  · simp only [computeConfidence]
    by_cases h : (compareFields db_data scraped_data).length > 0
    · rw [if_pos h]
      omega
    · rw [if_neg h]
      omega
  · simp only [computeConfidence]
    by_cases h0 : (compareFields db_data scraped_data).length = 0
    · rw [if_pos h0]
      omega
    · rw [if_neg h0]
      by_cases h1 : (compareFields db_data scraped_data).length = 1
      · rw [if_pos h1]
        omega
      · rw [if_neg h1]
        omega
  · intro provider_id
    unfold get_mock_provider_data
    repeat' split
    all_goals exact ⟨by decide, by decide⟩

/-- Witness for C4 at the table hint 85 of provider 1001 and its record pair. -/
theorem C4_confidence_bounds_witness :
    (0 : Int) ≤ 85 ∧ (85 : Int) ≤ 100 ∧
    (0 ≤ computeConfidence (some 85) (compareFields record_1001 record_1001).length ∧
     computeConfidence (some 85) (compareFields record_1001 record_1001).length ≤ 100) :=
  ⟨by decide, by decide, (C4_confidence_bounds record_1001 record_1001 85 (by decide) (by decide)).1⟩

/-- C5: For every record pair and every compared field, values that are equal
after normalization (string coercion, lowercasing, whitespace trimming)
never produce a discrepancy for that field. -/
theorem C5_normalized_equal_no_discrepancy (db_data scraped_data : Record) (f : Field)
    (h : normalize ((db_data f).getD "") = normalize ((scraped_data f).getD "")) :
    f ∉ (compareFields db_data scraped_data).map Discrepancy.field := by
  apply fieldDiscrepancy_none_not_mem
  unfold fieldDiscrepancy
  simp [h]

/-- Record used by the C5 witness: a city value differing only in case and
surrounding whitespace. -/
def c5_reference_record : Record := fun f =>
  match f with
  | Field.city => some "  NEW Delhi "
  | _ => none

/-- Record used by the C5 witness. -/
def c5_observed_record : Record := fun f =>
  match f with
  | Field.city => some "new delhi"
  | _ => none

/-- Witness for C5: "  NEW Delhi " and "new delhi" are normalized-equal and
produce no city discrepancy. -/
theorem C5_normalized_equal_no_discrepancy_witness :
    normalize ((c5_reference_record Field.city).getD "")
      = normalize ((c5_observed_record Field.city).getD "") ∧
    Field.city ∉ (compareFields c5_reference_record c5_observed_record).map Discrepancy.field :=
  ⟨by decide, C5_normalized_equal_no_discrepancy c5_reference_record c5_observed_record
    Field.city (by decide)⟩

/-- C6: The substring equivalence check is symmetric: whenever either
normalized value occurs contiguously inside the other (in either argument
order), no discrepancy is recorded for that field. -/
theorem C6_substring_symmetric (db_data scraped_data : Record) (f : Field)
    (h : (normalize ((db_data f).getD "")).data <:+: (normalize ((scraped_data f).getD "")).data ∨
         (normalize ((scraped_data f).getD "")).data <:+: (normalize ((db_data f).getD "")).data) :
    f ∉ (compareFields db_data scraped_data).map Discrepancy.field := by
  apply fieldDiscrepancy_none_not_mem
  unfold fieldDiscrepancy
  by_cases heq : normalize ((db_data f).getD "") = normalize ((scraped_data f).getD "")
  · simp [heq]
  · have hm : is_minor_variation f (normalize ((db_data f).getD ""))
        (normalize ((scraped_data f).getD "")) = true := by
      simp only [is_minor_variation, isSubstrOf, Bool.or_eq_true, occursIn_iff]
      rcases h with h | h
      · exact Or.inl (Or.inl h)
      · exact Or.inl (Or.inr h)
    simp [heq, hm]

/-- Record used by the C6 witness: the reference holds the longer address. -/
def c6_reference_record : Record := fun f =>
  match f with
  | Field.address => some "A-123, Green Park Area"
  | _ => none

/-- Record used by the C6 witness: the observed address is a substring of the
reference one. -/
def c6_observed_record : Record := fun f =>
  match f with
  | Field.address => some "Green Park"
  | _ => none

/-- Witness for C6 with the observed value a substring of the reference value
(the longer value on the reference side). -/
theorem C6_substring_symmetric_witness :
    ((normalize ((c6_reference_record Field.address).getD "")).data <:+:
        (normalize ((c6_observed_record Field.address).getD "")).data ∨
     (normalize ((c6_observed_record Field.address).getD "")).data <:+:
        (normalize ((c6_reference_record Field.address).getD "")).data) ∧
    Field.address ∉ (compareFields c6_reference_record c6_observed_record).map Discrepancy.field :=
  ⟨by decide, C6_substring_symmetric c6_reference_record c6_observed_record
    Field.address (by decide)⟩

/-- C7: For the address field, when the observed value's normalized word
count is exactly one more than the reference value's, no discrepancy is
recorded for the address field. -/
theorem C7_address_word_count (db_data scraped_data : Record)
    (h : wordCount (normalize ((scraped_data Field.address).getD "")) =
         wordCount (normalize ((db_data Field.address).getD "")) + 1) :
    Field.address ∉ (compareFields db_data scraped_data).map Discrepancy.field := by
  apply fieldDiscrepancy_none_not_mem
  unfold fieldDiscrepancy
  by_cases heq : normalize ((db_data Field.address).getD "")
      = normalize ((scraped_data Field.address).getD "")
  · simp [heq]
  · have hm : is_minor_variation Field.address (normalize ((db_data Field.address).getD ""))
        (normalize ((scraped_data Field.address).getD "")) = true := by
      simp only [is_minor_variation, Bool.or_eq_true, Bool.and_eq_true, beq_iff_eq]
      refine Or.inr ⟨rfl, ?_⟩
      rw [h]
      push_cast
      ring
    simp [heq, hm]

/-- Record used by the C7 witness: the spec's reference address. -/
def c7_reference_record : Record := fun f =>
  match f with
  | Field.address => some "C-789, Satellite"
  | _ => none

/-- Record used by the C7 witness: the spec's observed address with one
extra word. -/
def c7_observed_record : Record := fun f =>
  match f with
  | Field.address => some "C-789, Satellite Area"
  | _ => none

/-- Witness for C7 at the spec's example: "C-789, Satellite" versus
"C-789, Satellite Area" records no address discrepancy. -/
theorem C7_address_word_count_witness :
    wordCount (normalize ((c7_observed_record Field.address).getD "")) =
      wordCount (normalize ((c7_reference_record Field.address).getD "")) + 1 ∧
    Field.address ∉ (compareFields c7_reference_record c7_observed_record).map Discrepancy.field :=
  ⟨by decide, C7_address_word_count c7_reference_record c7_observed_record (by decide)⟩

/-- C8: The boundary rejects a request with a non-positive identifier with
`InvalidInput` (the result is exactly the error, so no pipeline state is
constructed and no pipeline step runs), and invokes the full pipeline on the
freshly built initial state for every positive identifier. -/
theorem C8_boundary_validation (provider_id : Int) :
    (validate_provider provider_id = Except.error ApiError.invalidInput ↔ provider_id ≤ 0) ∧
    (0 < provider_id →
      validate_provider provider_id = Except.ok (run_workflow (initial_state provider_id))) := by
  constructor
  · constructor
    · intro h
      by_contra hpos
      unfold validate_provider at h
      rw [if_neg hpos] at h
      exact Except.noConfusion h
    · intro h
      unfold validate_provider
      rw [if_pos h]
  · intro h
    unfold validate_provider
    rw [if_neg (by omega)]

/-- Witness for C8 at identifiers 0 (rejected) and 1 (pipeline invoked). -/
theorem C8_boundary_validation_witness :
    validate_provider 0 = Except.error ApiError.invalidInput ∧
    validate_provider 1 = Except.ok (run_workflow (initial_state 1)) :=
  ⟨(C8_boundary_validation 0).1.mpr (by decide), (C8_boundary_validation 1).2 (by decide)⟩

/-- C9: In every pipeline run on a positive identifier, the fetch step stores
a baseline expected score (preserved by the scrape step), the run's final
confidence is computed by the baseline branch `max 0 (b - 5n)` / `b` (so the
count-only fallback formula is never used in a pipeline run), and the stored
baseline is 75 for every identifier outside the mock table. -/
theorem C9_fetch_always_baseline (provider_id : Int) (_hpos : 0 < provider_id) :
    (fetch_provider_node (initial_state provider_id)).expected_confidence =
      some (get_mock_provider_data provider_id).confidence ∧
    (scrape_web_node (fetch_provider_node (initial_state provider_id))).expected_confidence =
      some (get_mock_provider_data provider_id).confidence ∧
    (run_workflow (initial_state provider_id)).confidence_score =
      (if 0 < (compareFields (get_mock_provider_data provider_id).db
                 (get_mock_provider_data provider_id).scraped).length
       then max 0 ((get_mock_provider_data provider_id).confidence -
              ((compareFields (get_mock_provider_data provider_id).db
                  (get_mock_provider_data provider_id).scraped).length : Int) * 5)
       else (get_mock_provider_data provider_id).confidence) ∧
    (provider_id ∉ ([1001, 1002, 1003, 2001, 2002, 3001, 3002, 4001] : List Int) →
      (get_mock_provider_data provider_id).confidence = 75) := by
  refine ⟨rfl, rfl, ?_, ?_⟩
  · unfold run_workflow
    rw [apply_route_confidence]
    rfl
  · intro h
    simp only [List.mem_cons, List.not_mem_nil, or_false, not_or] at h
    obtain ⟨h1, h2, h3, h4, h5, h6, h7, h8⟩ := h
    unfold get_mock_provider_data
    rw [if_neg h1, if_neg h2, if_neg h3, if_neg h4, if_neg h5, if_neg h6, if_neg h7, if_neg h8]

/-- Witness for C9 at identifier 5 (positive, outside the mock table). -/
theorem C9_fetch_always_baseline_witness :
    (fetch_provider_node (initial_state 5)).expected_confidence =
      some (get_mock_provider_data 5).confidence ∧
    (get_mock_provider_data 5).confidence = 75 :=
  ⟨(C9_fetch_always_baseline 5 (by decide)).1,
   (C9_fetch_always_baseline 5 (by decide)).2.2.2 (by decide)⟩

/-- C10: For every compared field, when either record's value is missing or
normalizes to the empty string, no discrepancy is recorded for that field
(the empty string is a substring of every string). -/
theorem C10_missing_or_empty_no_discrepancy (db_data scraped_data : Record) (f : Field)
    (h : (db_data f = none ∨ normalize ((db_data f).getD "") = "") ∨
         (scraped_data f = none ∨ normalize ((scraped_data f).getD "") = "")) :
    f ∉ (compareFields db_data scraped_data).map Discrepancy.field := by
  apply fieldDiscrepancy_none_not_mem
  have hempty : normalize ((db_data f).getD "") = "" ∨
      normalize ((scraped_data f).getD "") = "" := by
    rcases h with (h | h) | (h | h)
    · left
      rw [h]
      rfl
    · left
      exact h
    · right
      rw [h]
      rfl
    · right
      exact h
  unfold fieldDiscrepancy
  by_cases heq : normalize ((db_data f).getD "") = normalize ((scraped_data f).getD "")
  · simp [heq]
  · have hm : is_minor_variation f (normalize ((db_data f).getD ""))
        (normalize ((scraped_data f).getD "")) = true := by
      simp only [is_minor_variation, Bool.or_eq_true]
      rcases hempty with h0 | h0
      · rw [h0]
        exact Or.inl (Or.inl (isSubstrOf_empty_left _))
      · rw [h0]
        exact Or.inl (Or.inr (isSubstrOf_empty_left _))
    simp [heq, hm]

/-- Witness for C10: the reference record misses the phone key entirely while
the observed record has a phone value; no phone discrepancy is recorded. -/
theorem C10_missing_or_empty_no_discrepancy_witness :
    ((emptyRecord Field.phone = none ∨
        normalize ((emptyRecord Field.phone).getD "") = "") ∨
     (phone_observed Field.phone = none ∨
        normalize ((phone_observed Field.phone).getD "") = "")) ∧
    Field.phone ∉ (compareFields emptyRecord phone_observed).map Discrepancy.field :=
  ⟨Or.inl (Or.inl rfl),
   C10_missing_or_empty_no_discrepancy emptyRecord phone_observed Field.phone
     (Or.inl (Or.inl rfl))⟩

end CortexSync
